import Mathlib

/-!
Shallow embedding of `src/ethiopian_calendar.c` (pg-ethiopian-calendar).

The C source performs all arithmetic on `int` with C's division operators,
which truncate toward zero; they are embedded as `Int.tdiv` / `Int.tmod`
over unbounded integers.  The conversion routines `gregorian_to_jdn`,
`jdn_to_gregorian`, `jdn_to_ethiopian`, `ethiopian_to_jdn`, the DateADT
adapters, the `to_ethiopian_datetime` pipeline and the field validation of
`from_ethiopian_date` are translated line by line from the source.

Separately, `gregorianToJdnSpec` and `jdnToEthiopianSpec` evaluate the
specification's formulas (spec sections 4.1 and 4.2) with mathematical floor
division (`Int.fdiv` / `Int.fmod`), as the specification's floor-division
discipline prescribes, so that the code's truncating arithmetic can be
compared against them.
-/

/-- Ethiopian calendar epoch (JDN of Ethiopian 1-1-1), `#define ETHIOPIAN_EPOCH`. -/
def ETHIOPIAN_EPOCH : Int := 1724221

/-- PostgreSQL date epoch as a JDN (days offset of DateADT), `POSTGRES_EPOCH_JDATE`. -/
def POSTGRES_EPOCH_JDATE : Int := 2451545

/-- Microseconds per day, `USECS_PER_DAY`. -/
def USECS_PER_DAY : Int := 86400000000

/-- A (year, month, day) triple as returned through the C out-parameters. -/
structure CalDate where
  year : Int
  month : Int
  day : Int
deriving DecidableEq

/-- Embedding of `gregorian_to_jdn` (ethiopian_calendar.c lines 44-58).
C division truncates toward zero, hence `Int.tdiv`. -/
def gregorian_to_jdn (year month day : Int) : Int :=
  let a := (14 - month).tdiv 12
  let y := year + 4800 - a
  let m := month + 12 * a - 3
  day + (153 * m + 2).tdiv 5 + 365 * y + y.tdiv 4 - y.tdiv 100 + y.tdiv 400 - 32045

/-- Embedding of `jdn_to_gregorian` (ethiopian_calendar.c lines 69-84). -/
def jdn_to_gregorian (jdn : Int) : CalDate :=
  let a := jdn + 32044
  let b := (4 * a + 3).tdiv 146097
  let c := a - (b * 146097).tdiv 4
  let d := (4 * c + 3).tdiv 1461
  let e := c - (1461 * d).tdiv 4
  let m := (5 * e + 2).tdiv 153
  { year := b * 100 + d - 4800 + m.tdiv 10
    month := m + 3 - 12 * m.tdiv 10
    day := e - (153 * m + 2).tdiv 5 + 1 }

/-- Embedding of `jdn_to_ethiopian` (ethiopian_calendar.c lines 117-171).
`yoe0` / `doy0` are the values of `year_of_era` / `day_of_year` before the
`year_of_era == 4` correction; the final `if` clause is the defensive clamp
of lines 166-169 (`is_leap = (*year % 4 == 3)`, `max_days = is_leap ? 6 : 5`). -/
def jdn_to_ethiopian (jdn : Int) : CalDate :=
  let days_since_epoch := jdn - ETHIOPIAN_EPOCH
  let yoe0 := (days_since_epoch.tmod 1461).tdiv 365
  let doy0 := (days_since_epoch.tmod 1461).tmod 365
  let era := days_since_epoch.tdiv 1461
  let year_of_era := if yoe0 = 4 then 3 else yoe0
  let day_of_year := if yoe0 = 4 then 365 else doy0
  let year := 4 * era + year_of_era + 1
  if day_of_year < 360 then
    { year := year, month := day_of_year.tdiv 30 + 1, day := day_of_year.tmod 30 + 1 }
  else
    let max_days : Int := if year.tmod 4 = 3 then 6 else 5
    let day := day_of_year - 360 + 1
    { year := year, month := 13, day := if day > max_days then max_days else day }

/-- Variant of `jdn_to_ethiopian` with the defensive clamp of lines 166-169
removed, used to express whether the clamp branch changes the output. -/
def jdn_to_ethiopian_noclamp (jdn : Int) : CalDate :=
  let days_since_epoch := jdn - ETHIOPIAN_EPOCH
  let yoe0 := (days_since_epoch.tmod 1461).tdiv 365
  let doy0 := (days_since_epoch.tmod 1461).tmod 365
  let era := days_since_epoch.tdiv 1461
  let year_of_era := if yoe0 = 4 then 3 else yoe0
  let day_of_year := if yoe0 = 4 then 365 else doy0
  let year := 4 * era + year_of_era + 1
  if day_of_year < 360 then
    { year := year, month := day_of_year.tdiv 30 + 1, day := day_of_year.tmod 30 + 1 }
  else
    { year := year, month := 13, day := day_of_year - 360 + 1 }

/-- Embedding of `ethiopian_to_jdn` (ethiopian_calendar.c lines 195-220). -/
def ethiopian_to_jdn (year month day : Int) : Int :=
  let era := (year - 1).tdiv 4
  let year_of_era := (year - 1).tmod 4
  let day_of_year := if month ≤ 12 then (month - 1) * 30 + (day - 1) else 360 + (day - 1)
  ETHIOPIAN_EPOCH + era * 1461 + year_of_era * 365 + day_of_year

/-- Embedding of `dateadt_to_gregorian` (ethiopian_calendar.c lines 230-241). -/
def dateadt_to_gregorian (date_val : Int) : CalDate :=
  jdn_to_gregorian (date_val + POSTGRES_EPOCH_JDATE)

/-- Embedding of `gregorian_to_dateadt` (ethiopian_calendar.c lines 251-264). -/
def gregorian_to_dateadt (year month day : Int) : Int :=
  gregorian_to_jdn year month day - POSTGRES_EPOCH_JDATE

/-- Modelled from the spec: the host collaborator's date extraction
(`timestamp_date`, a PostgreSQL builtin outside this repository).  Per the
data model (spec section 3), a timestamp splits into a date and a
non-negative TimeOfDay offset smaller than one day, so the date part is the
floor day count of the microsecond timestamp. -/
def timestamp_date (timestamp_val : Int) : Int :=
  timestamp_val.fdiv USECS_PER_DAY

/-- Embedding of `to_ethiopian_datetime` (ethiopian_calendar.c lines 328-369),
on a microsecond timestamp: split off the time-of-day offset, run the date
through `gregorian_to_jdn`, `jdn_to_ethiopian`, `ethiopian_to_jdn`,
`jdn_to_gregorian`, and recombine the resulting DateADT with the offset. -/
def to_ethiopian_datetime (timestamp_val : Int) : Int :=
  let date_val := timestamp_date timestamp_val
  let time_offset := timestamp_val - date_val * USECS_PER_DAY
  let g := dateadt_to_gregorian date_val
  let jdn := gregorian_to_jdn g.year g.month g.day
  let e := jdn_to_ethiopian jdn
  let jdn2 := ethiopian_to_jdn e.year e.month e.day
  let g2 := jdn_to_gregorian jdn2
  let eth_date := gregorian_to_dateadt g2.year g2.month g2.day
  eth_date * USECS_PER_DAY + time_offset

/-- Embedding of the field validation in `from_ethiopian_date`
(ethiopian_calendar.c lines 411-447): `true` means the (year, month, day)
candidate passes every check, `false` that some `ereport(ERROR, ...)` fires.
The checks are translated in source order; `eth_year % 4` is C truncating
remainder, hence `Int.tmod`. -/
def validate_ethiopian (eth_year eth_month eth_day : Int) : Bool :=
  if eth_month < 1 ∨ eth_month > 13 then false
  else if eth_day < 1 then false
  else if eth_month ≤ 12 then
    if eth_day > 30 then false else true
  else
    if eth_day > (if eth_year.tmod 4 = 3 then (6 : Int) else 5) then false else true

/-- Evaluation of the spec section 4.1 `gregorianToJdn` formula with
mathematical floor division (`Int.fdiv`), as the spec's floor-division
discipline (section 9) prescribes, for comparison with `gregorian_to_jdn`. -/
def gregorianToJdnSpec (year month day : Int) : Int :=
  let a := (14 - month).fdiv 12
  let y := year + 4800 - a
  let m := month + 12 * a - 3
  day + (153 * m + 2).fdiv 5 + 365 * y + y.fdiv 4 - y.fdiv 100 + y.fdiv 400 - 32045

/-- Evaluation of the spec section 4.2 `jdnToEthiopian` steps 1-7 with
mathematical floor division (`Int.fdiv` / `Int.fmod`), as the spec's
floor-division discipline (section 9) prescribes, for comparison with
`jdn_to_ethiopian`. -/
def jdnToEthiopianSpec (jdn : Int) : CalDate :=
  let daysSinceEpoch := jdn - ETHIOPIAN_EPOCH
  let era := daysSinceEpoch.fdiv 1461
  let remainder := daysSinceEpoch.fmod 1461
  let yoe0 := remainder.fdiv 365
  let doy0 := remainder.fmod 365
  let yearOfEra := if yoe0 = 4 then 3 else yoe0
  let dayOfYear := if yoe0 = 4 then 365 else doy0
  let year := 4 * era + yearOfEra + 1
  if dayOfYear < 360 then
    { year := year, month := dayOfYear.fdiv 30 + 1, day := dayOfYear.fmod 30 + 1 }
  else
    let maxDay : Int := if year % 4 = 3 then 6 else 5
    let day := dayOfYear - 360 + 1
    { year := year, month := 13, day := if day > maxDay then maxDay else day }

/-- Claim C1: the Ethiopian round trip `jdn_to_ethiopian (ethiopian_to_jdn y m d)`
is claimed to return `(y, m, d)` for every triple satisfying the section 3
invariants.  The valid leap-year date (3, 13, 6) — year 3 is leap since
`3 % 4 = 3`, so month 13 has 6 days — refutes it: the code returns (4, 1, 1),
New Year's Day of the following year. -/
theorem ethiopian_roundtrip_fails_on_leap_pagume6 :
    (3 : Int) % 4 = 3 ∧
    jdn_to_ethiopian (ethiopian_to_jdn 3 13 6) = ⟨4, 1, 1⟩ ∧
    jdn_to_ethiopian (ethiopian_to_jdn 3 13 6) ≠ ⟨3, 13, 6⟩ := by
  decide

/-- Claim C2: the defensive clamp of `jdn_to_ethiopian` (lines 166-169) is
claimed never to execute for any JDN at or after the epoch that reaches
month 13.  At JDN 1725681 = ETHIOPIAN_EPOCH + 1460 the function computes
month 13 with pre-clamp day 6 while the computed year 4 makes `max_days = 5`,
so the clamp fires and changes the output: with the clamp the result is
(4, 13, 5), without it (4, 13, 6). -/
theorem clamp_fires_at_cycle_last_day :
    ETHIOPIAN_EPOCH ≤ 1725681 ∧
    (jdn_to_ethiopian 1725681).month = 13 ∧
    jdn_to_ethiopian 1725681 = ⟨4, 13, 5⟩ ∧
    jdn_to_ethiopian_noclamp 1725681 = ⟨4, 13, 6⟩ ∧
    jdn_to_ethiopian 1725681 ≠ jdn_to_ethiopian_noclamp 1725681 := by
  decide

/-- Claim C3: for a JDN at or after the epoch with
`(jdn - 1724221) % 1461 = 1460`, the claim says `jdn_to_ethiopian` returns
month 13, day 6 of a year with `year % 4 = 3`.  JDN 1727142 satisfies the
hypothesis (1727142 - 1724221 = 2921 = 2 * 1461 + 1460 ≥ 0) but the code
returns (8, 13, 5): the year is divisible by 4 (not congruent to 3) and the
day has been clamped to 5, not 6. -/
theorem cycle_remainder_1460_misassigned :
    ((1727142 : Int) - ETHIOPIAN_EPOCH) % 1461 = 1460 ∧
    ETHIOPIAN_EPOCH ≤ 1727142 ∧
    jdn_to_ethiopian 1727142 = ⟨8, 13, 5⟩ ∧
    (jdn_to_ethiopian 1727142).year % 4 = 0 ∧
    (jdn_to_ethiopian 1727142).day ≠ 6 := by
  decide

/-- Claim C4: `to_ethiopian_datetime` is claimed to return a timestamp
numerically identical to its input for every Gregorian timestamp.  The
timestamp -62714649600000000 µs (midnight of the day whose JDN is
1725681 = ETHIOPIAN_EPOCH + 1460, DateADT -725864) refutes it: the pipeline
returns -62714736000000000 µs, exactly one day (USECS_PER_DAY) earlier. -/
theorem to_ethiopian_datetime_not_identity :
    to_ethiopian_datetime (-62714649600000000) =
      -62714649600000000 - USECS_PER_DAY ∧
    to_ethiopian_datetime (-62714649600000000) ≠ -62714649600000000 := by
  decide

/-- Claim C5: every division in `gregorian_to_jdn`, `jdn_to_gregorian` and
`jdn_to_ethiopian` is claimed to be mathematical floor division, so that each
function equals the spec formulas evaluated with floor division on every
integer input.  The C operators truncate toward zero, and the two
evaluations diverge for inputs before the respective epochs: at JDN 1724220
(one day before the Ethiopian epoch) the code returns (1, 1, 0) while the
floor-division spec formula returns (0, 13, 5); for Gregorian (-4801, 3, 1)
the code returns JDN -32409 while the floor-division formula returns -32410. -/
theorem truncating_division_diverges_from_floor_spec :
    jdn_to_ethiopian 1724220 = ⟨1, 1, 0⟩ ∧
    jdnToEthiopianSpec 1724220 = ⟨0, 13, 5⟩ ∧
    jdn_to_ethiopian 1724220 ≠ jdnToEthiopianSpec 1724220 ∧
    gregorian_to_jdn (-4801) 3 1 = -32409 ∧
    gregorianToJdnSpec (-4801) 3 1 = -32410 ∧
    gregorian_to_jdn (-4801) 3 1 ≠ gregorianToJdnSpec (-4801) 3 1 := by
  decide

/-- Claim C6: the Gregorian round trip
`jdn_to_gregorian (gregorian_to_jdn y m d)` is claimed to return `(y, m, d)`
for every valid proleptic date, for any integer year.  The valid date
(-4801, 3, 1) refutes it: C truncating division makes the intermediate
computational year negative and the round trip returns (-4801, 4, -28). -/
theorem gregorian_roundtrip_fails_before_epoch :
    jdn_to_gregorian (gregorian_to_jdn (-4801) 3 1) = ⟨-4801, 4, -28⟩ ∧
    jdn_to_gregorian (gregorian_to_jdn (-4801) 3 1) ≠ ⟨-4801, 3, 1⟩ := by
  decide

/-- Claim C7: `jdn_to_ethiopian` applied to the JDN one past the last day of
month 13 of year y is claimed to return (y + 1, 1, 1) for every positive y.
For the leap year y = 3 (last day (3, 13, 6)) the code returns (4, 1, 2)
instead of (4, 1, 1); for y = 4 (last day (4, 13, 5)) it returns (4, 13, 5)
itself instead of (5, 1, 1). -/
theorem month13_boundary_fails :
    (3 : Int) % 4 = 3 ∧
    jdn_to_ethiopian (ethiopian_to_jdn 3 13 6 + 1) = ⟨4, 1, 2⟩ ∧
    jdn_to_ethiopian (ethiopian_to_jdn 3 13 6 + 1) ≠ ⟨4, 1, 1⟩ ∧
    (4 : Int) % 4 ≠ 3 ∧
    jdn_to_ethiopian (ethiopian_to_jdn 4 13 5 + 1) = ⟨4, 13, 5⟩ ∧
    jdn_to_ethiopian (ethiopian_to_jdn 4 13 5 + 1) ≠ ⟨5, 1, 1⟩ := by
  decide

/-- Claim C8: for every candidate with positive year, the field validation of
`from_ethiopian_date` rejects exactly when month is outside 1..13, or day is
smaller than 1, or month is at most 12 and day exceeds 30, or month is 13 and
day exceeds 6 for a leap year (`year % 4 = 3`) and 5 otherwise; in
particular (3, 13, 6) is accepted and (4, 13, 6) is rejected, and nothing
else (no upper bound on the year) causes rejection. -/
theorem from_ethiopian_date_validation_iff :
    (∀ y m d : Int, 1 ≤ y →
      (validate_ethiopian y m d = false ↔
        m < 1 ∨ m > 13 ∨ d < 1 ∨ (m ≤ 12 ∧ d > 30) ∨
          (m = 13 ∧ d > (if y % 4 = 3 then 6 else 5)))) ∧
    validate_ethiopian 3 13 6 = true ∧
    validate_ethiopian 4 13 6 = false := by
  refine ⟨?_, by decide, by decide⟩
  intro y m d hy
  have hmod : y.tmod 4 = y % 4 := Int.tmod_eq_emod (by omega) (by norm_num)
  simp only [validate_ethiopian, hmod]
  split_ifs <;> simp_all <;> omega

/-- Witness for C8: the validation iff instantiated at the concrete candidate
(5, 14, 1), whose month 14 lies outside 1..13 and is therefore rejected. -/
theorem from_ethiopian_date_validation_iff_witness :
    validate_ethiopian 5 14 1 = false :=
  (from_ethiopian_date_validation_iff.1 5 14 1 (by norm_num)).mpr (by decide)

/-- Claim C9: the epoch anchor holds — `jdn_to_ethiopian 1724221 = (1, 1, 1)`
and `ethiopian_to_jdn 1 1 1 = 1724221` — and the composed pipeline maps
Gregorian 2015-09-11 to Ethiopian (2008, 1, 1). -/
theorem epoch_anchor_and_known_point :
    jdn_to_ethiopian ETHIOPIAN_EPOCH = ⟨1, 1, 1⟩ ∧
    ethiopian_to_jdn 1 1 1 = ETHIOPIAN_EPOCH ∧
    jdn_to_ethiopian (gregorian_to_jdn 2015 9 11) = ⟨2008, 1, 1⟩ := by
  decide

/-- Claim C10: `ethiopian_to_jdn` is not injective on valid dates: for every
positive leap year L (`L % 4 = 3`), the 6th epagomenal day (L, 13, 6) and
New Year's Day (L + 1, 1, 1) of the following year map to the same JDN. -/
theorem ethiopian_to_jdn_leap_collision (L : Int) (h1 : 1 ≤ L) (h4 : L % 4 = 3) :
    ethiopian_to_jdn L 13 6 = ethiopian_to_jdn (L + 1) 1 1 := by
  simp only [ethiopian_to_jdn]
  rw [Int.tdiv_eq_ediv (a := L - 1) (by omega) (by norm_num),
      Int.tmod_eq_emod (a := L - 1) (by omega) (by norm_num),
      Int.tdiv_eq_ediv (a := L + 1 - 1) (by omega) (by norm_num),
      Int.tmod_eq_emod (a := L + 1 - 1) (by omega) (by norm_num)]
  norm_num
  omega

/-- Witness for C10: the collision at the concrete leap year 3, where both
(3, 13, 6) and (4, 1, 1) map to JDN 1725316. -/
theorem ethiopian_to_jdn_leap_collision_witness :
    (1 ≤ (3 : Int) ∧ (3 : Int) % 4 = 3) ∧
    ethiopian_to_jdn 3 13 6 = ethiopian_to_jdn 4 1 1 :=
  ⟨by decide, ethiopian_to_jdn_leap_collision 3 (by decide) (by decide)⟩
